import Mathlib

/-!
# Verification of the make-it-public tunneling core

Shallow embedding of the auth repository (`pkg/repo/auth`), the core service
connection handlers (`pkg/core`), and the client connection wrapper
(`pkg/revclient`), together with theorems settling the behavioural claims
about them.

Go errors are modelled by the inductive `GoError`; `fmt.Errorf("...: %w", e)`
becomes `GoError.wrap msg e` and `errors.Is` becomes `errorsIs`.  The Redis
backing store is modelled as an association list from keys to
(value, ttl) pairs, with an explicit fault-injection parameter standing for a
failing Redis command.  The scrypt KDF is an external library
(golang.org/x/crypto/scrypt), so it is abstracted as a function parameter
`scryptKey : String → List Nat → List Nat` producing the derived key bytes;
the base64 standard encoding is implemented concretely (RFC 4648).
-/

/-- Go `error` values, with sentinel errors of the repository and wrapping via
`fmt.Errorf("...: %w", err)`. -/
inductive GoError where
  /-- `core.ErrFailedToConnect` -/
  | failedToConnect
  /-- `core.ErrKeyIDNotFound` -/
  | keyIDNotFound
  /-- `core.ErrConnClosed` -/
  | connClosed
  /-- `core.ErrDuplicateTokenID` -/
  | duplicateTokenID
  /-- `core.ErrTokenNotFound` -/
  | tokenNotFound
  /-- `token.ErrInvalidTypeSuffix` -/
  | invalidTypeSuffix
  /-- `net.ErrClosed` -/
  | netErrClosed
  /-- `syscall.ECONNRESET` -/
  | econnreset
  /-- authentication rejected during the revdial handshake -/
  | authFailed
  /-- any other error value, identified by a tag -/
  | ioError (tag : String)
  /-- `fmt.Errorf("<msg>: %w", inner)` -/
  | wrap (msg : String) (inner : GoError)
deriving DecidableEq, Repr

/-- Model of Go `errors.Is err target`: unwrap the `%w` chain and compare
with the sentinel. -/
def errorsIs : GoError → GoError → Bool
  | GoError.wrap _ inner, target => errorsIs inner target
  | e, target => e == target

/-- `token.TokenType`: the two kinds of tunnels. -/
inductive TokenType where
  | web
  | tcp
deriving DecidableEq, Repr

/-- `token.Token`: immutable credential tuple.  `Type` is a Lean keyword, so
the field is named `tokenType`; `TTL` (a `time.Duration`) is an integer. -/
structure Token where
  ID : String
  Secret : String
  tokenType : TokenType
  TTL : Int
deriving DecidableEq, Repr

/-- The base64 standard alphabet (RFC 4648), as used by
`encoding/base64.StdEncoding`. -/
def base64Chars : List Char :=
  "ABCDEFGHIJKLMNOPQRSTUVWXYZabcdefghijklmnopqrstuvwxyz0123456789+/".toList

/-- The base64 digit for a 6-bit value. -/
def b64Char (n : Nat) : Char := base64Chars.getD n 'A'

/-- `encoding/base64.StdEncoding.EncodeToString` on a byte list
(bytes as `Nat` values below 256), padded with `=`. -/
def base64Encode : List Nat → String
  | [] => ""
  | [b1] =>
      String.mk [b64Char (b1 / 4), b64Char (b1 % 4 * 16), '=', '=']
  | [b1, b2] =>
      String.mk [b64Char (b1 / 4), b64Char (b1 % 4 * 16 + b2 / 16),
                 b64Char (b2 % 16 * 4), '=']
  | b1 :: b2 :: b3 :: rest =>
      String.mk [b64Char (b1 / 4), b64Char (b1 % 4 * 16 + b2 / 16),
                 b64Char (b2 % 16 * 4 + b3 / 64), b64Char (b3 % 64)]
        ++ base64Encode rest

/-- Splits a character list at its LAST `-`: returns the part before it and
the part after it, or `none` when no `-` occurs. -/
def splitAtLastDash : List Char → Option (List Char × List Char)
  | [] => none
  | c :: rest =>
      match splitAtLastDash rest with
      | some (l, r) => some (c :: l, r)
      | none => if c = '-' then some ([], rest) else none

/-- Modelled from the spec: `token.ExtractIDAndType` (package
`pkg/core/token`) is not under src/ — only its callers and tests are.  Per
§4.A of the spec it splits the id at the last `-`, maps suffix `w` to the web
type and `t` to the tcp type, and fails with `InvalidTypeSuffix` otherwise
(the tests in `auth_test.go` also require ids with no `-` at all, such as
`"key123"`, to fail with `InvalidTypeSuffix`). -/
def extractIDAndType (s : String) : Except GoError (String × TokenType) :=
  match splitAtLastDash s.toList with
  | none => Except.error GoError.invalidTypeSuffix
  | some (idChars, sufChars) =>
      if sufChars = ['w'] then Except.ok (String.mk idChars, TokenType.web)
      else if sufChars = ['t'] then Except.ok (String.mk idChars, TokenType.tcp)
      else Except.error GoError.invalidTypeSuffix

/-- `true` iff the id carries a valid `-w`/`-t` type suffix, i.e.
`extractIDAndType` succeeds on it. -/
def hasValidTypeSuffix (s : String) : Bool :=
  (extractIDAndType s).toOption.isSome

/-! ## Auth repository (`pkg/repo/auth/auth.go`)

The Redis database is an association list `Store` from keys to
`(value, ttl)`; a `fault : Option GoError` parameter per operation stands for
the Redis command returning an error (other than `redis.Nil`). -/

/-- State of the Redis store: key, value and the TTL the value was set with. -/
def Store : Type := List (String × String × Int)

/-- Lookup of a key in the store (Redis `Get`; `none` is `redis.Nil`). -/
def Store.lookup (st : Store) (k : String) : Option (String × Int) :=
  match st with
  | [] => none
  | (k', v, t) :: rest => if k' = k then some (v, t) else Store.lookup rest k

/-- Redis `SetNX key value ttl`: set-if-absent.  Returns the new store and
whether the value was set (`false` when the key already existed). -/
def Store.setNX (st : Store) (k v : String) (ttl : Int) : Store × Bool :=
  match Store.lookup st k with
  | some _ => (st, false)
  | none => ((k, v, ttl) :: st, true)

/-- Redis `Exists key`: whether the key is present. -/
def Store.existsKey (st : Store) (k : String) : Bool :=
  (Store.lookup st k).isSome

/-- `auth.scryptPrefix` -/
def scryptPrefix : String := "sc:"

/-- `auth.apiKeyPrefix` -/
def apiKeyPrefix : String := "API_KEY::"

/-- `auth.Repo` (the Redis handle lives outside: a `Store` plus fault
parameter are passed to each operation). -/
structure Repo where
  keyPrefix : String
  salt : List Nat
deriving DecidableEq, Repr

/-- `auth.hashSecret`: scrypt the secret with the salt (parameters
`N=2^15, r=8, p=1, dkLen=32` are pinned inside the abstracted `scryptKey`)
and prefix the base64 of the derived key with `"sc:"`.  With valid pinned
parameters `scrypt.Key` never fails, so the model is total. -/
def hashSecret (scryptKey : String → List Nat → List Nat)
    (secret : String) (salt : List Nat) : String :=
  scryptPrefix ++ base64Encode (scryptKey secret salt)

/-- `Repo.IsKeyExists`: probes `r.keyPrefix + keyID` — note the source does
NOT insert `apiKeyPrefix` here, unlike `Verify`, `SaveToken` and
`DeleteToken`. -/
def Repo.isKeyExists (r : Repo) (st : Store) (fault : Option GoError)
    (keyID : String) : Except GoError Bool :=
  match fault with
  | some e => Except.error (GoError.wrap "failed to check key existence" e)
  | none => Except.ok (Store.existsKey st (r.keyPrefix ++ keyID))

/-- `Repo.Verify`: hash the secret, split the type suffix off the key id
(failing with a wrapped `InvalidTypeSuffix` before any store access), then
`Get` the key `r.keyPrefix + apiKeyPrefix + baseKeyID` and compare.
`Except.ok none` is Go's `nil, nil` (bad credentials). -/
def Repo.verify (scryptKey : String → List Nat → List Nat) (r : Repo)
    (st : Store) (fault : Option GoError) (keyIDWithSuffix secret : String) :
    Except GoError (Option Token) :=
  let secretHash := hashSecret scryptKey secret r.salt
  match extractIDAndType keyIDWithSuffix with
  | Except.error e =>
      Except.error (GoError.wrap "failed to extract token type from key ID" e)
  | Except.ok (baseKeyID, tokenType) =>
      match fault with
      | some e => Except.error (GoError.wrap "failed to get key" e)
      | none =>
          match Store.lookup st (r.keyPrefix ++ apiKeyPrefix ++ baseKeyID) with
          | some (v, _) =>
              if v ≠ secretHash then Except.ok none
              else Except.ok (some ⟨baseKeyID, "", tokenType, 0⟩)
          | none => Except.ok none

/-- `Repo.SaveToken`: `SetNX` of the hashed secret under
`r.keyPrefix + apiKeyPrefix + t.ID` with the token's TTL; a bare
`core.ErrDuplicateTokenID` when the key already existed. -/
def Repo.saveToken (scryptKey : String → List Nat → List Nat) (r : Repo)
    (st : Store) (fault : Option GoError) (t : Token) :
    Store × Option GoError :=
  let secretHash := hashSecret scryptKey t.Secret r.salt
  match fault with
  | some e => (st, some (GoError.wrap "failed to save token" e))
  | none =>
      match Store.setNX st (r.keyPrefix ++ apiKeyPrefix ++ t.ID) secretHash t.TTL with
      | (st', true) => (st', none)
      | (st', false) => (st', some GoError.duplicateTokenID)

/-- `Repo.DeleteToken`: delete under `r.keyPrefix + apiKeyPrefix + tokenID`;
bare `core.ErrTokenNotFound` when nothing was removed. -/
def Repo.deleteToken (r : Repo) (st : Store) (fault : Option GoError)
    (tokenID : String) : Store × Option GoError :=
  match fault with
  | some e => (st, some (GoError.wrap "failed to delete token" e))
  | none =>
      let key := r.keyPrefix ++ apiKeyPrefix ++ tokenID
      match Store.lookup st key with
      | some _ => (st.filter (fun p => p.1 ≠ key), none)
      | none => (st, some GoError.tokenNotFound)

/-! ## Core service connection handlers (`pkg/core/conn_handlers.go`)

The handlers are pure functions of an environment record collecting the
outcomes of the I/O steps the Go code performs (request for a reverse
connection, wait, metadata write, the two `io.Copy` directions, …).  Each
field mirrors one fallible call of the source, in source order. -/

/-- Outcome of one `io.Copy`: bytes copied (an `int64`, always non-negative
at runtime; the model quantifies over all of `Int`) and the copy error. -/
structure CopyOutcome where
  bytes : Int
  err : Option GoError
deriving DecidableEq, Repr

/-- `core.pipeToDest`: classify the copy error (`net.ErrClosed` /
`ECONNRESET` become `ErrConnClosed`, anything else is wrapped), then
`CloseWrite` the destination, ignoring a `net.ErrClosed` from it. -/
def pipeToDestF (o : CopyOutcome) (closeWriteErr : Option GoError) :
    Option GoError :=
  match o.err with
  | some e =>
      if errorsIs e GoError.netErrClosed || errorsIs e GoError.econnreset then
        some GoError.connClosed
      else
        some (GoError.wrap "error copying from reverse connection" e)
  | none =>
      match closeWriteErr with
      | some e =>
          if errorsIs e GoError.netErrClosed then none
          else some (GoError.wrap "failed to close write end of reverse connection" e)
      | none => none

/-- `core.pipeToSource`: record the bytes copied back in `*written` (first
component) and return `ErrConnClosed` for closed/reset or clean completion,
a wrapped error otherwise.  Note it never returns a nil error. -/
def pipeToSourceF (o : CopyOutcome) : Int × GoError :=
  (o.bytes,
    match o.err with
    | some e =>
        if errorsIs e GoError.netErrClosed || errorsIs e GoError.econnreset then
          GoError.connClosed
        else
          GoError.wrap "error copying to reverse connection" e
    | none => GoError.connClosed)

/-- `errgroup.Wait` over the two pipe goroutines: the first non-nil error in
completion order, which is nondeterministic; `destFirst` selects which
goroutine's error wins when both fail. -/
def egWaitRes (destRes srcRes : Option GoError) (destFirst : Bool) :
    Option GoError :=
  match destRes, srcRes with
  | some e, some e' => if destFirst then some e else some e'
  | some e, none => some e
  | none, r => r

/-- Environment of one `Service.HandleHTTPConnection` call: outcome of each
fallible step, in source order. -/
structure HTTPEnv where
  /-- error of `s.webConnMng.RequestConnection(ctx, keyID)` -/
  reqConnErr : Option GoError
  /-- result of `s.auth.IsKeyExists(ctx, keyID)` (consulted only on
  `ErrKeyIDNotFound`) -/
  isKeyExistsRes : Except GoError Bool
  /-- error of `req.WaitConn(ctx)` -/
  waitConnErr : Option GoError
  /-- error of `meta.WriteData(revConn, …)` -/
  writeMetaErr : Option GoError
  /-- error of `write(revConn)` (replay of the buffered request prefix) -/
  writeInitialErr : Option GoError
  /-- `io.Copy` outcome of the user→reverse direction (`pipeToDest`) -/
  destCopy : CopyOutcome
  /-- error of `revConn.CloseWrite()` inside `pipeToDest` -/
  destCloseWriteErr : Option GoError
  /-- `io.Copy` outcome of the reverse→user direction (`pipeToSource`) -/
  srcCopy : CopyOutcome
  /-- whether the `pipeToDest` goroutine finished first -/
  destFirst : Bool

/-- `Service.HandleHTTPConnection`: returns the Go error (`none` = nil). -/
def handleHTTPConnection (env : HTTPEnv) : Option GoError :=
  match env.reqConnErr with
  | some e =>
      if errorsIs e GoError.keyIDNotFound then
        match env.isKeyExistsRes with
        | Except.error e2 => some (GoError.wrap "failed to check key existence" e2)
        | Except.ok false =>
            some (GoError.wrap "keyID not found" GoError.keyIDNotFound)
        | Except.ok true =>
            some (GoError.wrap "no connections available for keyID" GoError.failedToConnect)
      else
        some (GoError.wrap "failed to request connection" GoError.failedToConnect)
  | none =>
      match env.waitConnErr with
      | some _ => some (GoError.wrap "connection request failed" GoError.failedToConnect)
      | none =>
          match env.writeMetaErr with
          | some _ => some (GoError.wrap "failed to write client connection meta" GoError.failedToConnect)
          | none =>
              match env.writeInitialErr with
              | some _ => some (GoError.wrap "failed to write initial request" GoError.failedToConnect)
              | none =>
                  let destRes := pipeToDestF env.destCopy env.destCloseWriteErr
                  let srcRes := pipeToSourceF env.srcCopy
                  let err := egWaitRes destRes (some srcRes.2) env.destFirst
                  if srcRes.1 ≤ 0 then
                    some (GoError.wrap "no data written to reverse connection" GoError.failedToConnect)
                  else
                    match err with
                    | some e =>
                        if errorsIs e GoError.connClosed then none
                        else some (GoError.wrap "failed to copy data" e)
                    | none => none

/-- Environment of one `Service.HandleTCPConnection` call (same steps as the
HTTP path except there is no initial-request replay). -/
structure TCPEnv where
  /-- error of `s.tcpConnMng.RequestConnection(ctx, keyID)` -/
  reqConnErr : Option GoError
  /-- result of `s.auth.IsKeyExists(ctx, keyID)` -/
  isKeyExistsRes : Except GoError Bool
  /-- error of `req.WaitConn(ctx)` -/
  waitConnErr : Option GoError
  /-- error of `meta.WriteData(revConn, …)` -/
  writeMetaErr : Option GoError
  /-- `io.Copy` outcome of the user→reverse direction -/
  destCopy : CopyOutcome
  /-- error of `revConn.CloseWrite()` inside `pipeToDest` -/
  destCloseWriteErr : Option GoError
  /-- `io.Copy` outcome of the reverse→user direction -/
  srcCopy : CopyOutcome
  /-- whether the `pipeToDest` goroutine finished first -/
  destFirst : Bool

/-- `Service.HandleTCPConnection`: identical head to the HTTP path, but the
pipe-phase result of `eg.Wait()` is only logged (the `if` around the
`slog.DebugContext` call) and the function then returns nil — there is no
zero-byte check and no error propagation from the pipes. -/
def handleTCPConnection (env : TCPEnv) : Option GoError :=
  match env.reqConnErr with
  | some e =>
      if errorsIs e GoError.keyIDNotFound then
        match env.isKeyExistsRes with
        | Except.error e2 => some (GoError.wrap "failed to check key existence" e2)
        | Except.ok false =>
            some (GoError.wrap "keyID not found" GoError.keyIDNotFound)
        | Except.ok true =>
            some (GoError.wrap "no connections available for keyID" GoError.failedToConnect)
      else
        some (GoError.wrap "failed to request TCP connection" GoError.failedToConnect)
  | none =>
      match env.waitConnErr with
      | some _ => some (GoError.wrap "TCP connection request failed" GoError.failedToConnect)
      | none =>
          match env.writeMetaErr with
          | some _ => some (GoError.wrap "failed to write TCP client connection meta" GoError.failedToConnect)
          | none =>
              let destRes := pipeToDestF env.destCopy env.destCloseWriteErr
              let srcRes := pipeToSourceF env.srcCopy
              let logged := egWaitRes destRes (some srcRes.2) env.destFirst
              -- `if err := eg.Wait(); err != nil && !errors.Is(err, ErrConnClosed)`
              -- only logs; the function returns nil unconditionally.
              let _ := logged
              none

/-! ## Connection wrappers (`pkg/revclient` `wrapConn`, server
`yamuxStreamWrapper`)

A `net.Conn` is modelled by its closing behaviour: `close` is the effect of
`Close()` on the connection state `σ`, and `closeWrite?` is `some f` exactly
when the dynamic type implements `CloseWrite() error` (the `conn.(Conn)`
type assertion succeeds). -/

/-- Model of a Go connection value for half-close purposes. -/
structure ConnModel (σ : Type) where
  /-- effect of `Close()` -/
  close : σ → σ × Option GoError
  /-- `some f` iff the value implements `CloseWrite() error`, with effect `f` -/
  closeWrite? : Option (σ → σ × Option GoError)

/-- `revclient.wrapConn`: if the connection already implements `CloseWrite`
(the type assertion succeeds) it is returned as-is, otherwise it is wrapped
in `connWrapper`, whose `CloseWrite` delegates to `Close` and whose other
methods are the embedded connection's. -/
def wrapConn {σ : Type} (c : ConnModel σ) : ConnModel σ :=
  match c.closeWrite? with
  | some _ => c
  | none => { c with closeWrite? := some c.close }

/-- `core.yamuxStreamWrapper`: embeds the stream and adds
`CloseWrite() { return w.Close() }`. -/
def yamuxStreamWrapper {σ : Type} (c : ConnModel σ) : ConnModel σ :=
  { c with closeWrite? := some c.close }

/-! ## `Service.HandleReverseConn` (`pkg/core/conn_handlers.go`)

The revdial handshake (`proto.NewServerV2(...).Process()`) is modelled by an
authentication outcome plus the remaining protocol outcome; the calls into
the connection manager are recorded as a trace. -/

/-- Terminal state of `proto.Server.State()` after `Process()`. -/
inductive ProtoState where
  | registered
  | bound
  | unknown
deriving DecidableEq, Repr

/-- A call on a connection manager, tagged with which manager (web or tcp)
received it. -/
inductive MngCall where
  | addConnection (kind : TokenType) (keyID : String)
  | removeConnection (kind : TokenType) (keyID : String)
  | resolveRequest (kind : TokenType)
deriving DecidableEq, Repr

/-- Environment of one `Service.HandleReverseConn` call. -/
structure RevConnEnv where
  /-- whether the `WithUserPassAuth` callback accepted the credentials
  (i.e. `auth.Verify` returned a valid token without error) -/
  authOk : Bool
  /-- outcome of the rest of `servConn.Process()` given that authentication
  succeeded: a protocol error, or the terminal state -/
  postAuth : Except GoError ProtoState
  /-- type of the verified token (`connTokenType`) -/
  tokenType : TokenType
  /-- base key id extracted by the auth callback (`connKeyID`) -/
  keyID : String
  /-- result of `s.tcpEndpointAllocator.Allocate` (tcp tokens) -/
  allocateRes : Except GoError String
  /-- result of `s.endpointGenerator` (web tokens) -/
  generateRes : Except GoError String
  /-- error of `srvConn.SendURLToConnectUpdatedEvent(endpoint)` -/
  sendEventErr : Option GoError
  /-- error of `conn.NewCloseNotifier(revConn)` (`Bound` branch) -/
  notifierErr : Option GoError

/-- Result of `servConn.Process()`: authentication failure aborts the
handshake with an error; otherwise the remaining protocol outcome decides. -/
def processResult (env : RevConnEnv) : Except GoError ProtoState :=
  if env.authOk then env.postAuth else Except.error GoError.authFailed

/-- `Service.HandleReverseConn`: returns the Go error (`none` = nil) and the
trace of connection-manager calls made on behalf of this connection.  A
failed `Process()` is only logged and the function returns nil.  In the
`Registered` branch the keepalive loop runs until the connection context is
done or a ping fails; either way the function returns nil and the deferred
`RemoveConnection` runs.  (The V2 `acceptV2Streams` goroutine is only
spawned inside this same branch.) -/
def handleReverseConn (env : RevConnEnv) : Option GoError × List MngCall :=
  match processResult env with
  | Except.error _ => (none, [])
  | Except.ok ProtoState.registered =>
      let kind := env.tokenType
      let epRes := if kind = TokenType.tcp then env.allocateRes else env.generateRes
      match epRes with
      | Except.error e =>
          (some (GoError.wrap
            (if kind = TokenType.tcp then "failed to allocate TCP endpoint"
             else "failed to generate endpoint") e), [])
      | Except.ok _ =>
          match env.sendEventErr with
          | some e => (some (GoError.wrap "failed to send url to connect updated event" e), [])
          | none =>
              (none, [MngCall.addConnection kind env.keyID,
                      MngCall.removeConnection kind env.keyID])
  | Except.ok ProtoState.bound =>
      match env.notifierErr with
      | some e => (some (GoError.wrap "failed to create close notifier" e), [])
      | none => (none, [MngCall.resolveRequest env.tokenType])
  | Except.ok ProtoState.unknown =>
      (some (GoError.ioError "unexpected state while handling incomming connection"), [])

/-! ## Helper lemmas -/

/-- The only error `extractIDAndType` ever produces is `InvalidTypeSuffix`. -/
theorem extract_error_eq (s : String) (e : GoError)
    (hx : extractIDAndType s = Except.error e) :
    e = GoError.invalidTypeSuffix := by
  unfold extractIDAndType at hx
  split at hx
  · exact (Except.error.inj hx).symm
  · split at hx
    · exact Except.noConfusion hx
    · split at hx
      · exact Except.noConfusion hx
      · exact (Except.error.inj hx).symm

/-- `extractIDAndType` fails only with `InvalidTypeSuffix`; failing at all is
the same as lacking a valid type suffix. -/
theorem extract_error_of_not_valid (s : String)
    (h : hasValidTypeSuffix s = false) :
    extractIDAndType s = Except.error GoError.invalidTypeSuffix := by
  cases hx : extractIDAndType s with
  | ok v =>
      unfold hasValidTypeSuffix at h
      rw [hx] at h
      simp [Except.toOption] at h
  | error e => rw [extract_error_eq s e hx]

/-! ## Claim theorems -/

/-- C1 (code evaluation at the failing input): after a successful
`SaveToken` of the token with base ID `"key123"` (stored under
`"prefix::API_KEY::key123"`), `IsKeyExists "key123"` still reports `false`,
because the source probes `keyPrefix+keyID` without the `API_KEY::` segment.
The claim says the probe addresses the same stored key and must report
`true`. -/
theorem c1_saveToken_isKeyExists_mismatch :
    (Repo.saveToken (fun _ _ => List.replicate 32 0)
        { keyPrefix := "prefix::", salt := [] } [] none
        { ID := "key123", Secret := "secret123",
          tokenType := TokenType.web, TTL := 60 }).2 = none
    ∧ Repo.isKeyExists { keyPrefix := "prefix::", salt := [] }
        (Repo.saveToken (fun _ _ => List.replicate 32 0)
          { keyPrefix := "prefix::", salt := [] } [] none
          { ID := "key123", Secret := "secret123",
            tokenType := TokenType.web, TTL := 60 }).1 none "key123"
        = Except.ok false
    ∧ Store.lookup
        (Repo.saveToken (fun _ _ => List.replicate 32 0)
          { keyPrefix := "prefix::", salt := [] } [] none
          { ID := "key123", Secret := "secret123",
            tokenType := TokenType.web, TTL := 60 }).1
        ("prefix::" ++ apiKeyPrefix ++ "key123") ≠ none := by
  refine ⟨rfl, rfl, ?_⟩
  decide

/-- C2: in `HandleHTTPConnection`, once the pipe phase is reached (request,
wait, metadata write and initial-request replay all succeeded), a pipe that
completes with zero bytes copied back from the reverse stream to the
end-user connection makes the call return an error wrapping
`ErrFailedToConnect` — for every outcome of the two copy directions,
including the error-free ones. -/
theorem c2_http_zero_bytes_failedToConnect (env : HTTPEnv)
    (h1 : env.reqConnErr = none) (h2 : env.waitConnErr = none)
    (h3 : env.writeMetaErr = none) (h4 : env.writeInitialErr = none)
    (h5 : env.srcCopy.bytes = 0) :
    handleHTTPConnection env =
      some (GoError.wrap "no data written to reverse connection" GoError.failedToConnect)
    ∧ errorsIs (GoError.wrap "no data written to reverse connection" GoError.failedToConnect)
        GoError.failedToConnect = true := by
  refine ⟨?_, rfl⟩
  unfold handleHTTPConnection
  rw [h1, h2, h3, h4]
  have hb : (pipeToSourceF env.srcCopy).1 = (0 : Int) := by
    rw [pipeToSourceF, h5]
  simp [hb]

/-- C2 witness: a concrete error-free run with zero bytes copied back. -/
theorem c2_http_zero_bytes_failedToConnect_witness :
    handleHTTPConnection
      { reqConnErr := none, isKeyExistsRes := Except.ok true,
        waitConnErr := none, writeMetaErr := none, writeInitialErr := none,
        destCopy := { bytes := 5, err := none }, destCloseWriteErr := none,
        srcCopy := { bytes := 0, err := none }, destFirst := false } =
      some (GoError.wrap "no data written to reverse connection" GoError.failedToConnect)
    ∧ errorsIs (GoError.wrap "no data written to reverse connection" GoError.failedToConnect)
        GoError.failedToConnect = true :=
  c2_http_zero_bytes_failedToConnect _ rfl rfl rfl rfl rfl

/-- C3: when `RequestConnection` fails with `ErrKeyIDNotFound`, both
`HandleHTTPConnection` and `HandleTCPConnection` consult `IsKeyExists`:
a `false` report makes them return an error wrapping `ErrKeyIDNotFound`, a
`true` report an error wrapping `ErrFailedToConnect`. -/
theorem c3_keyIDNotFound_disambiguation (envH : HTTPEnv) (envT : TCPEnv)
    (e e' : GoError) (b b' : Bool)
    (hH1 : envH.reqConnErr = some e)
    (hHe : errorsIs e GoError.keyIDNotFound = true)
    (hH2 : envH.isKeyExistsRes = Except.ok b)
    (hT1 : envT.reqConnErr = some e')
    (hTe : errorsIs e' GoError.keyIDNotFound = true)
    (hT2 : envT.isKeyExistsRes = Except.ok b') :
    handleHTTPConnection envH =
      some (if b then GoError.wrap "no connections available for keyID" GoError.failedToConnect
            else GoError.wrap "keyID not found" GoError.keyIDNotFound)
    ∧ handleTCPConnection envT =
      some (if b' then GoError.wrap "no connections available for keyID" GoError.failedToConnect
            else GoError.wrap "keyID not found" GoError.keyIDNotFound)
    ∧ (∀ m, errorsIs (GoError.wrap m GoError.failedToConnect) GoError.failedToConnect = true)
    ∧ (∀ m, errorsIs (GoError.wrap m GoError.keyIDNotFound) GoError.keyIDNotFound = true) := by
  refine ⟨?_, ?_, fun m => rfl, fun m => rfl⟩
  · unfold handleHTTPConnection
    rw [hH1, hH2]
    cases b <;> simp [hHe]
  · unfold handleTCPConnection
    rw [hT1, hT2]
    cases b' <;> simp [hTe]

/-- C3 witness: concrete runs, one with an existing key and one without. -/
theorem c3_keyIDNotFound_disambiguation_witness :
    handleHTTPConnection
      { reqConnErr := some (GoError.wrap "no conn" GoError.keyIDNotFound),
        isKeyExistsRes := Except.ok true, waitConnErr := none,
        writeMetaErr := none, writeInitialErr := none,
        destCopy := { bytes := 0, err := none }, destCloseWriteErr := none,
        srcCopy := { bytes := 0, err := none }, destFirst := false } =
      some (GoError.wrap "no connections available for keyID" GoError.failedToConnect)
    ∧ handleTCPConnection
      { reqConnErr := some GoError.keyIDNotFound,
        isKeyExistsRes := Except.ok false, waitConnErr := none,
        writeMetaErr := none,
        destCopy := { bytes := 0, err := none }, destCloseWriteErr := none,
        srcCopy := { bytes := 0, err := none }, destFirst := false } =
      some (GoError.wrap "keyID not found" GoError.keyIDNotFound) := by
  have h := c3_keyIDNotFound_disambiguation
    { reqConnErr := some (GoError.wrap "no conn" GoError.keyIDNotFound),
      isKeyExistsRes := Except.ok true, waitConnErr := none,
      writeMetaErr := none, writeInitialErr := none,
      destCopy := { bytes := 0, err := none }, destCloseWriteErr := none,
      srcCopy := { bytes := 0, err := none }, destFirst := false }
    { reqConnErr := some GoError.keyIDNotFound,
      isKeyExistsRes := Except.ok false, waitConnErr := none,
      writeMetaErr := none,
      destCopy := { bytes := 0, err := none }, destCloseWriteErr := none,
      srcCopy := { bytes := 0, err := none }, destFirst := false }
    (GoError.wrap "no conn" GoError.keyIDNotFound) GoError.keyIDNotFound
    true false rfl rfl rfl rfl rfl rfl
  exact ⟨h.1, h.2.1⟩

/-- C4: for every key id lacking a valid `-w`/`-t` type suffix, `Verify`
returns a nil token together with an error wrapping `InvalidTypeSuffix`,
with a result that is the same for every store state and every store fault —
the store is not queried. -/
theorem c4_verify_invalid_suffix (scryptKey : String → List Nat → List Nat)
    (r : Repo) (keyID secret : String)
    (h : hasValidTypeSuffix keyID = false) :
    (∀ st fault, Repo.verify scryptKey r st fault keyID secret =
      Except.error (GoError.wrap "failed to extract token type from key ID"
        GoError.invalidTypeSuffix))
    ∧ errorsIs (GoError.wrap "failed to extract token type from key ID"
        GoError.invalidTypeSuffix) GoError.invalidTypeSuffix = true := by
  refine ⟨fun st fault => ?_, rfl⟩
  unfold Repo.verify
  rw [extract_error_of_not_valid keyID h]

/-- C4 witness: the suffix-less id `"key123"` from the tests, at a concrete
store and without a store fault. -/
theorem c4_verify_invalid_suffix_witness :
    Repo.verify (fun _ _ => List.replicate 32 0)
      { keyPrefix := "prefix::", salt := [] } [] none "key123" "secret123" =
      Except.error (GoError.wrap "failed to extract token type from key ID"
        GoError.invalidTypeSuffix) :=
  (c4_verify_invalid_suffix (fun _ _ => List.replicate 32 0)
    { keyPrefix := "prefix::", salt := [] } "key123" "secret123" (by decide)).1 [] none

/-- C5 counterexample: `Verify` can return a non-nil error in a run with no
store fault at all (`fault = none`): the suffix-less key id `"key123"` makes
it fail with a wrapped `InvalidTypeSuffix`, which is not a store fault — so
"returns a non-nil error only for store faults", read over all inputs, is
false on the code. -/
theorem c5_verify_error_without_store_fault :
    Repo.verify (fun _ _ => List.replicate 32 0)
      { keyPrefix := "prefix::", salt := [] } [] none "key123" "secret123" =
      Except.error (GoError.wrap "failed to extract token type from key ID"
        GoError.invalidTypeSuffix) := by
  rfl

/-- C5 (amended): for every key id bearing a valid type suffix, `Verify`
returns a null token with no error exactly in the bad-credentials cases —
no stored value under the base key, or stored hash different from the hash
of the supplied secret — and returns a non-nil error exactly when the store
faults. -/
theorem c5_amended_verify_null_iff_bad_creds
    (scryptKey : String → List Nat → List Nat) (r : Repo) (st : Store)
    (fault : Option GoError) (keyID secret base : String) (ty : TokenType)
    (h : extractIDAndType keyID = Except.ok (base, ty)) :
    (Repo.verify scryptKey r st fault keyID secret = Except.ok none ↔
      fault = none ∧
        (Store.lookup st (r.keyPrefix ++ apiKeyPrefix ++ base) = none ∨
         ∃ v ttl,
           Store.lookup st (r.keyPrefix ++ apiKeyPrefix ++ base) = some (v, ttl) ∧
           v ≠ hashSecret scryptKey secret r.salt))
    ∧ ((∃ e, Repo.verify scryptKey r st fault keyID secret = Except.error e) ↔
        fault ≠ none) := by
  unfold Repo.verify
  rw [h]
  cases fault with
  | some e => simp
  | none =>
      cases hl : Store.lookup st (r.keyPrefix ++ apiKeyPrefix ++ base) with
      | none => simp [hl]
      | some p =>
          obtain ⟨v, ttl⟩ := p
          by_cases hv : v = hashSecret scryptKey secret r.salt
          · subst hv
            simp [hl]
          · simp [hl, hv]

/-- C5 witness: valid suffix, empty store, no fault — bad credentials, so
`nil, nil`. -/
theorem c5_amended_verify_null_iff_bad_creds_witness :
    Repo.verify (fun _ _ => List.replicate 32 0)
      { keyPrefix := "prefix::", salt := [] } [] none "key123-w" "secret123" =
      Except.ok none :=
  (c5_amended_verify_null_iff_bad_creds (fun _ _ => List.replicate 32 0)
      { keyPrefix := "prefix::", salt := [] } [] none "key123-w" "secret123"
      "key123" TokenType.web rfl).1.mpr ⟨rfl, Or.inl rfl⟩

/-- C6: `SaveToken` is a set-if-absent of the value
`"sc:" + base64(scrypt(secret, salt))` under the key
`keyPrefix + "API_KEY::" + t.ID` with the token's TTL, and it returns
`ErrDuplicateTokenID` exactly when a value already exists under that key. -/
theorem c6_saveToken_set_if_absent (scryptKey : String → List Nat → List Nat)
    (r : Repo) (st : Store) (t : Token) :
    ((Repo.saveToken scryptKey r st none t).2 = some GoError.duplicateTokenID ↔
      Store.lookup st (r.keyPrefix ++ apiKeyPrefix ++ t.ID) ≠ none)
    ∧ (Store.lookup st (r.keyPrefix ++ apiKeyPrefix ++ t.ID) ≠ none →
        (Repo.saveToken scryptKey r st none t).1 = st)
    ∧ (Store.lookup st (r.keyPrefix ++ apiKeyPrefix ++ t.ID) = none →
        Repo.saveToken scryptKey r st none t =
          ((r.keyPrefix ++ apiKeyPrefix ++ t.ID,
            "sc:" ++ base64Encode (scryptKey t.Secret r.salt),
            t.TTL) :: st, none)) := by
  unfold Repo.saveToken Store.setNX
  cases hl : Store.lookup st (r.keyPrefix ++ apiKeyPrefix ++ t.ID) with
  | none => simp [hl, hashSecret, scryptPrefix]
  | some p => simp [hl]

/-- C6 witness: saving into the empty store inserts the hashed value with
the token's TTL; the duplicate condition is decidably false there. -/
theorem c6_saveToken_set_if_absent_witness :
    Repo.saveToken (fun _ _ => List.replicate 32 0)
      { keyPrefix := "prefix::", salt := [] } [] none
      { ID := "key123", Secret := "secret123",
        tokenType := TokenType.web, TTL := 60 } =
      (("prefix::" ++ apiKeyPrefix ++ "key123",
        "sc:" ++ base64Encode (List.replicate 32 0), (60 : Int)) :: [], none) :=
  (c6_saveToken_set_if_absent (fun _ _ => List.replicate 32 0)
    { keyPrefix := "prefix::", salt := [] } []
    { ID := "key123", Secret := "secret123",
      tokenType := TokenType.web, TTL := 60 }).2.2 rfl

/-- C8: a connection without a native `CloseWrite` is wrapped — by the
client's `wrapConn` and by the server's `yamuxStreamWrapper` — into one
whose `CloseWrite` is exactly `Close` of the underlying connection, while a
connection that already implements `CloseWrite` is returned unchanged by
`wrapConn`. -/
theorem c8_closeWrite_wrappers {σ : Type} (c : ConnModel σ) :
    (c.closeWrite? = none →
      wrapConn c = { close := c.close, closeWrite? := some c.close })
    ∧ (∀ f, c.closeWrite? = some f → wrapConn c = c)
    ∧ (yamuxStreamWrapper c).closeWrite? = some c.close
    ∧ (yamuxStreamWrapper c).close = c.close := by
  obtain ⟨cl, cw⟩ := c
  cases cw with
  | none => exact ⟨fun _ => rfl, fun f hf => absurd hf (by simp), rfl, rfl⟩
  | some f0 => exact ⟨fun h => absurd h (by simp), fun f _ => rfl, rfl, rfl⟩

/-- C8 witness: wrapping a concrete `CloseWrite`-less connection yields the
connection with `closeWrite?` set to its own `close`. -/
theorem c8_closeWrite_wrappers_witness :
    wrapConn (⟨fun s => (s, none), none⟩ : ConnModel Unit) =
      { close := fun s => (s, none), closeWrite? := some (fun s => (s, none)) } :=
  (c8_closeWrite_wrappers (⟨fun s => (s, none), none⟩ : ConnModel Unit)).1 rfl

/-- C9: once `HandleTCPConnection` reaches the pipe phase (request, wait and
metadata write all succeeded) it returns nil for EVERY pipe outcome — zero
bytes copied back, and any pipe error, `ErrConnClosed` or not, included:
`eg.Wait()`'s result is only logged, never returned. -/
theorem c9_tcp_pipe_always_nil (env : TCPEnv)
    (h1 : env.reqConnErr = none) (h2 : env.waitConnErr = none)
    (h3 : env.writeMetaErr = none) :
    handleTCPConnection env = none := by
  unfold handleTCPConnection
  rw [h1, h2, h3]

/-- C9 witness: zero bytes copied back and a pipe error that is not
`ErrConnClosed` — still nil. -/
theorem c9_tcp_pipe_always_nil_witness :
    handleTCPConnection
      { reqConnErr := none, isKeyExistsRes := Except.ok true,
        waitConnErr := none, writeMetaErr := none,
        destCopy := { bytes := 0, err := some (GoError.ioError "io failure") },
        destCloseWriteErr := none,
        srcCopy := { bytes := 0, err := some (GoError.ioError "io failure") },
        destFirst := true } = none :=
  c9_tcp_pipe_always_nil _ rfl rfl rfl

/-- C10: whenever the handshake `Process()` fails — in particular when the
`WithUserPassAuth` callback rejects the credentials — `HandleReverseConn`
returns nil, and the connection-manager call trace is empty: neither
`AddConnection` nor `ResolveRequest` (nor anything else) is invoked on any
manager for that connection. -/
theorem c10_handshake_failure_no_mng_calls (env : RevConnEnv)
    (h : env.authOk = false ∨ ∃ e, env.postAuth = Except.error e) :
    handleReverseConn env = (none, []) := by
  unfold handleReverseConn processResult
  cases hA : env.authOk with
  | false => simp
  | true =>
      rcases h with h' | ⟨e, he⟩
      · rw [hA] at h'
        exact absurd h' (by simp)
      · simp [he]

/-- C10 witness: bad credentials (auth callback returned false). -/
theorem c10_handshake_failure_no_mng_calls_witness :
    handleReverseConn
      { authOk := false, postAuth := Except.ok ProtoState.registered,
        tokenType := TokenType.web, keyID := "demo",
        allocateRes := Except.ok "edge.example.dev:10457",
        generateRes := Except.ok "https://demo.example.dev",
        sendEventErr := none, notifierErr := none } = (none, []) :=
  c10_handshake_failure_no_mng_calls _ (Or.inl rfl)
